import Mathlib

/-!
Shallow embedding of the Bet_Ledger repository (src/models.py,
src/services/odds.py, src/app.py) and verification of its settlement and
odds-conversion behaviour.

Modelling conventions:
* Python numbers (ints and floats) are embedded as `Int` / `Rat`; the
  arithmetic the code performs on them is exact rational arithmetic.
* Python's built-in `round` (round half to even) is embedded as `pyround`;
  Python's `int(x)` truncation toward zero is embedded as `int_trunc`.
* Code that can raise a runtime exception is embedded as a function into
  `PyResult`, with `PyResult.error` carrying the kind of exception
  (`zeroDivision` for `ZeroDivisionError`; `validation` stands for an
  explicit input-validation rejection, which the source never performs).
* Database rows loaded for one bet (its legs and participants) are embedded
  as lists inside a `Bet` record; the append-only settlement table is the
  `settlements` list of `DbState`.
* Timestamps are abstracted to `Nat` (only identity matters to the claims).
-/

-- The commands below only lift the `@[irreducible]` marking that Batteries
-- puts on core rational arithmetic, so that `decide` can evaluate concrete
-- rational computations in witnesses; they do not change any definition.
unseal Rat.mul

unseal Rat.add

unseal Rat.sub

unseal Rat.inv

namespace BetLedger

/-- `LegResult` enum from src/models.py. -/
inductive LegResult where
  | PENDING
  | WON
  | LOST
  | VOID
deriving DecidableEq, Repr

/-- `BetStatus` enum from src/models.py. -/
inductive BetStatus where
  | OPEN
  | WON
  | LOST
  | VOID
  | CASHED_OUT
deriving DecidableEq, Repr

/-- Kinds of failure a modelled Python function can surface: an uncaught
`ZeroDivisionError`, or an explicit validation rejection (never produced by
this source, but named by the spec). -/
inductive PyError where
  | zeroDivision
  | validation
deriving DecidableEq, Repr

/-- Result of running a modelled Python function: a value, or an uncaught
exception. Isomorphic to `Except PyError`, redefined to get decidable
equality on concrete results. -/
inductive PyResult (α : Type) where
  | ok : α → PyResult α
  | error : PyError → PyResult α
deriving DecidableEq, Repr

/-- Whether a `PyResult` is a value (the call returned without raising). -/
def PyResult.isOk {α : Type} : PyResult α → Bool
  | .ok _ => true
  | .error _ => false

/-- One row of the `bet_leg` table (src/models.py `BetLeg`): its id,
`american_odds` and current `result`. The `matchup`/`bet_description`
strings play no role in any claim and are omitted. -/
structure BetLeg where
  leg_id : Nat
  american_odds : Int
  result : LegResult
deriving DecidableEq, Repr

/-- One row of the `bet_participant` table (src/models.py `BetParticipant`). -/
structure BetParticipant where
  person_id : Nat
  stake_cents : Int
deriving DecidableEq, Repr

/-- One row of the `settlement` table (src/models.py `Settlement`).
`net_cents` is a `Rat` because `settle_bet` in src/app.py computes it with
Python float arithmetic and inserts the unconverted result. -/
structure Settlement where
  person_id : Nat
  net_cents : Rat
deriving DecidableEq, Repr

/-- A bet together with the rows `settle_bet` loads for it: the `bet` row
(src/models.py `Bet`: total `stake_cents`, `status`, nullable `settled_at`)
and its legs and participants. -/
structure Bet where
  stake_cents : Int
  status : BetStatus
  settled_at : Option Nat
  legs : List BetLeg
  participants : List BetParticipant
deriving DecidableEq, Repr

/-- Python's built-in `round` on an exact rational value: round to the
nearest integer, with exact halves going to the even neighbour. -/
def pyround (q : Rat) : Int :=
  if q - ⌊q⌋ < 1/2 then ⌊q⌋
  else if q - ⌊q⌋ > 1/2 then ⌊q⌋ + 1
  else if ⌊q⌋ % 2 = 0 then ⌊q⌋ else ⌊q⌋ + 1

/-- Python's `int(x)` on a rational value: truncation toward zero. -/
def int_trunc (q : Rat) : Int := if 0 ≤ q then ⌊q⌋ else ⌈q⌉

/-- `american_to_decimal` from src/services/odds.py.

    if american_odds > 0: return 1 + american_odds / 100
    else:                 return 1 + 100 / abs(american_odds)

For `american_odds = 0` the else branch divides `100` by `abs(0) = 0`,
which in Python raises `ZeroDivisionError`; the guard below marks exactly
that case as an error. -/
def american_to_decimal (american_odds : Int) : PyResult Rat :=
  if american_odds > 0 then
    .ok (1 + (american_odds : Rat) / 100)
  else
    if |american_odds| = 0 then .error .zeroDivision
    else .ok (1 + 100 / (|american_odds| : Rat))

/-- `decimal_to_american` from src/services/odds.py.

    if decimal_odds >= 2.0: return int((decimal_odds - 1) * 100)
    else:                   return int(-100 / (decimal_odds - 1))

For `decimal_odds = 1.0` the else branch divides `-100` by `0.0`, which in
Python raises `ZeroDivisionError`; the guard below marks exactly that case
as an error. -/
def decimal_to_american (decimal_odds : Rat) : PyResult Int :=
  if decimal_odds ≥ 2 then
    .ok (int_trunc ((decimal_odds - 1) * 100))
  else
    if decimal_odds - 1 = 0 then .error .zeroDivision
    else .ok (int_trunc (-100 / (decimal_odds - 1)))

/-- `calculate_parlay_payout` from src/services/odds.py:
`round(stake_cents * decimal_odds)`. -/
def calculate_parlay_payout (stake_cents : Int) (decimal_odds : Rat) : Int :=
  pyround ((stake_cents : Rat) * decimal_odds)

/-- The round trip `decimal_to_american(american_to_decimal(a))`
(spec section 8, first testable property). -/
def odds_roundtrip (a : Int) : PyResult Int :=
  match american_to_decimal a with
  | .error e => .error e
  | .ok d => decimal_to_american d

/-- The leg-update loop at the start of `settle_bet` in src/app.py, for one
leg. `form leg_id` is `request.form.get` for that leg: `none` when the field
is absent. An absent or empty token, the token `"pending"`, or any token
other than `"won"`/`"lost"`/`"void"` leaves the leg unchanged; the three
recognised tokens overwrite `result` (whatever its current value is). -/
def apply_result_update (form : Nat → Option String) (leg : BetLeg) : BetLeg :=
  match form leg.leg_id with
  | none => leg
  | some result =>
    if result = "" ∨ result = "pending" then leg
    else if result = "won" then { leg with result := LegResult.WON }
    else if result = "lost" then { leg with result := LegResult.LOST }
    else if result = "void" then { leg with result := LegResult.VOID }
    else leg

/-- The combined-odds loop of the WON branch of `settle_bet`:
starting from `acc`, multiply in `american_to_decimal(leg.american_odds)`
for every leg whose result is WON, propagating any exception. -/
def won_odds_fold : List BetLeg → Rat → PyResult Rat
  | [], acc => .ok acc
  | leg :: rest, acc =>
    if leg.result = LegResult.WON then
      match american_to_decimal leg.american_odds with
      | .error e => .error e
      | .ok d => won_odds_fold rest (acc * d)
    else won_odds_fold rest acc

/-- `sum(p.stake_cents for p in participants)` from src/app.py. -/
def total_stake (participants : List BetParticipant) : Int :=
  (participants.map fun p => p.stake_cents).sum

/-- What one invocation of the settle route computes for a bet: the updated
bet row (with updated legs) and the settlement rows it inserts. -/
structure SettleOutcome where
  bet : Bet
  new_settlements : List Settlement
deriving DecidableEq, Repr

/-- `settle_bet` from src/app.py (the business-rule part, after loading the
bet, its legs and its participants). `form` carries the submitted
`leg_<id>_result` tokens, `now` the current time.

Structure mirrors the source: update legs from the form; if any leg LOST,
status LOST with a full-stake-loss settlement per participant; else if any
leg PENDING, status OPEN and no settlements; else if all legs WON/VOID,
status WON with proportional-share settlements computed from the product of
the WON legs' decimal odds; else if all legs VOID, status VOID and no
settlements. `settled_at` is set exactly when the resulting status is not
OPEN. A WON-branch participant loop with `total_stake = 0` raises
`ZeroDivisionError` in the source (`p.stake_cents / total_stake`), which the
guard below reproduces. -/
def settle_bet (form : Nat → Option String) (now : Nat) (bet : Bet) :
    PyResult SettleOutcome :=
  let legs := bet.legs.map (apply_result_update form)
  let has_lost := legs.any fun leg => leg.result == LegResult.LOST
  if has_lost then
    .ok ⟨{ bet with legs := legs, status := BetStatus.LOST, settled_at := some now },
         bet.participants.map fun p =>
           { person_id := p.person_id, net_cents := -(p.stake_cents : Rat) }⟩
  else
    let has_pending := legs.any fun leg => leg.result == LegResult.PENDING
    if has_pending then
      .ok ⟨{ bet with legs := legs, status := BetStatus.OPEN }, []⟩
    else
      let all_winning := legs.all fun leg =>
        leg.result == LegResult.WON || leg.result == LegResult.VOID
      if all_winning then
        match won_odds_fold legs 1 with
        | .error e => .error e
        | .ok decimal_odds =>
          let total := total_stake bet.participants
          let total_payout := calculate_parlay_payout total decimal_odds
          if total = 0 ∧ bet.participants ≠ [] then .error .zeroDivision
          else
            .ok ⟨{ bet with legs := legs, status := BetStatus.WON, settled_at := some now },
                 bet.participants.map fun p =>
                   { person_id := p.person_id,
                     net_cents :=
                       (p.stake_cents : Rat) / (total : Rat) * (total_payout : Rat)
                         - (p.stake_cents : Rat) }⟩
      else
        let all_void := legs.all fun leg => leg.result == LegResult.VOID
        if all_void then
          .ok ⟨{ bet with legs := legs, status := BetStatus.VOID, settled_at := some now }, []⟩
        else
          .ok ⟨{ bet with legs := legs, status := BetStatus.OPEN }, []⟩

/-- The stored state the settle route touches: the bet (with its legs and
participants) and the append-only settlement table. -/
structure DbState where
  bet : Bet
  settlements : List Settlement
deriving DecidableEq, Repr

/-- One full invocation of the `/bet/<id>/settle` route against the store:
run `settle_bet` and, on success, commit the updated bet row and append the
newly created settlement rows. An exception aborts the transaction and
leaves the store unchanged. -/
def settle_route (form : Nat → Option String) (now : Nat) (db : DbState) :
    PyResult DbState :=
  match settle_bet form now db.bet with
  | .error e => .error e
  | .ok outcome => .ok ⟨outcome.bet, db.settlements ++ outcome.new_settlements⟩

/-- One submitted bet leg in the `new_bet` form (src/app.py), after the
presence check on its three fields. -/
structure LegSubmission where
  matchup : String
  bet_description : String
  american_odds : Int
deriving DecidableEq, Repr

/-- The participant-collection loop of `new_bet` in src/app.py. Input: per
person, the parsed numeric value of their submitted stake in dollars
(`float(stake_str)`); a person whose field is absent or empty is given `0`.
A participant row is created exactly when the parsed value is `> 0`, with
`stake_cents = int(value * 100)` (truncation toward zero). -/
def collect_participants (stakes : List (Nat × Rat)) : List BetParticipant :=
  stakes.filterMap fun s =>
    if 0 < s.2 then
      some { person_id := s.1, stake_cents := int_trunc (s.2 * 100) }
    else none

/-- `new_bet` from src/app.py (POST branch): reject when no complete leg was
submitted, when no participant has a positive parsed stake, or when the
total stake in cents is zero; otherwise create the bet OPEN with all legs
PENDING. Leg ids are assigned by position. Returns `none` on rejection. -/
def new_bet (legs_data : List LegSubmission) (stakes : List (Nat × Rat)) :
    Option Bet :=
  if legs_data = [] then none
  else
    let participants := collect_participants stakes
    if participants = [] then none
    else
      let total := total_stake participants
      if total = 0 then none
      else
        some { stake_cents := total,
               status := BetStatus.OPEN,
               settled_at := none,
               legs := legs_data.enum.map fun e =>
                 { leg_id := e.1, american_odds := e.2.american_odds,
                   result := LegResult.PENDING },
               participants := participants }

/-! ### Helper lemmas about the numeric primitives -/

/-- `pyround q` is never further than half a unit from `q`. -/
theorem pyround_abs_sub_le_half (q : Rat) : |(pyround q : Rat) - q| ≤ 1/2 := by
  have h1 : ((⌊q⌋ : Int) : Rat) ≤ q := Int.floor_le q
  have h2 : q < (⌊q⌋ : Int) + 1 := Int.lt_floor_add_one q
  unfold pyround
  split_ifs with hlt hgt heven
  · rw [abs_le]
    constructor <;> linarith
  · rw [abs_le]
    push_cast
    constructor <;> linarith
  · have heq : q - (⌊q⌋ : Int) = 1/2 := le_antisymm (not_lt.mp hgt) (not_lt.mp hlt)
    rw [abs_le]
    constructor <;> linarith
  · have heq : q - (⌊q⌋ : Int) = 1/2 := le_antisymm (not_lt.mp hgt) (not_lt.mp hlt)
    rw [abs_le]
    push_cast
    constructor <;> linarith

/-- On an exact half, `pyround` lands on the even neighbour. -/
theorem pyround_tie_to_even (q : Rat) (k : Int) (h : q = (k : Rat) + 1/2) :
    pyround q % 2 = 0 := by
  have hf : ⌊q⌋ = k := by
    rw [h, add_comm, Int.floor_add_int]
    norm_num
  have hfr : q - (⌊q⌋ : Int) = 1/2 := by
    rw [hf, h]
    ring
  unfold pyround
  rw [hfr, hf]
  norm_num
  split_ifs with hk
  · exact hk
  · omega

/-- `pyround` is the identity on integers. -/
theorem pyround_intCast (z : Int) : pyround (z : Rat) = z := by
  unfold pyround
  rw [Int.floor_intCast, sub_self]
  norm_num

/-- `int_trunc` is the identity on integers. -/
theorem int_trunc_intCast (z : Int) : int_trunc (z : Rat) = z := by
  unfold int_trunc
  split_ifs <;> simp

/-- Total stake of participants with nonnegative stakes is nonnegative. -/
theorem total_stake_nonneg (ps : List BetParticipant)
    (h : ∀ p ∈ ps, 0 ≤ p.stake_cents) : 0 ≤ total_stake ps := by
  unfold total_stake
  refine List.sum_nonneg ?_
  intro x hx
  obtain ⟨p, hp, rfl⟩ := List.mem_map.mp hx
  exact h p hp

/-! ### Claims -/

/-- C2, counterexample. `calculate_parlay_payout` does not round exact halves
away from zero: at stake 3 and decimal odds 3/2 the product is exactly 4.5,
the claim demands 5, and the function returns 4 (Python `round` is round half
to even). -/
theorem parlay_payout_half_to_even_cex :
    (3 : Rat) * (3/2) = 4 + 1/2 ∧
    calculate_parlay_payout 3 (3/2) = 4 ∧
    calculate_parlay_payout 3 (3/2) ≠ 5 := by
  refine ⟨by norm_num, ?_, ?_⟩ <;> decide

/-- C2, amended. For nonnegative `stake_cents` and `decimal_odds ≥ 1`,
`calculate_parlay_payout` returns an integer within half a cent of
`stake_cents × decimal_odds`, and when the product is an exact half it
returns the even neighbour (Python round-half-to-even, not half away from
zero). -/
theorem parlay_payout_nearest_tie_even (s : Int) (d : Rat)
    (_hs : 0 ≤ s) (_hd : 1 ≤ d) :
    |((calculate_parlay_payout s d : Int) : Rat) - (s : Rat) * d| ≤ 1/2 ∧
    ∀ k : Int, (s : Rat) * d = (k : Rat) + 1/2 →
      calculate_parlay_payout s d % 2 = 0 := by
  constructor
  · exact pyround_abs_sub_le_half _
  · intro k hk
    exact pyround_tie_to_even _ k hk

/-- Witness for C2's amended theorem at stake 3, decimal odds 3/2. -/
theorem parlay_payout_nearest_tie_even_witness :
    (0 : Int) ≤ 3 ∧ (1 : Rat) ≤ 3/2 ∧
    (|((calculate_parlay_payout 3 (3/2) : Int) : Rat) - (3 : Rat) * (3/2)| ≤ 1/2 ∧
     ∀ k : Int, (3 : Rat) * (3/2) = (k : Rat) + 1/2 →
       calculate_parlay_payout 3 (3/2) % 2 = 0) :=
  ⟨by decide, by decide, parlay_payout_nearest_tie_even 3 (3/2) (by decide) (by decide)⟩

/-- C5, counterexample. The source performs no validation: on the invalid
inputs (American odds 0, decimal odds 1) both conversion functions fail by
implicitly dividing by zero (`ZeroDivisionError`), which is not a validation
error. -/
theorem invalid_odds_raise_division_error_cex :
    american_to_decimal 0 = .error PyError.zeroDivision ∧
    decimal_to_american 1 = .error PyError.zeroDivision ∧
    PyError.zeroDivision ≠ PyError.validation := by
  refine ⟨?_, ?_, ?_⟩ <;> decide

/-- C5, amended. `american_to_decimal 0` and `decimal_to_american 1` each
fail, but with an implicit division-by-zero error rather than a validation
error; for every other input (`a ≠ 0`, `d ≠ 1`) the functions return a value
and no division by zero occurs. -/
theorem odds_conversion_division_behaviour (a : Int) (d : Rat)
    (ha : a ≠ 0) (hd : d ≠ 1) :
    american_to_decimal 0 = .error PyError.zeroDivision ∧
    decimal_to_american 1 = .error PyError.zeroDivision ∧
    (american_to_decimal a).isOk = true ∧
    (decimal_to_american d).isOk = true := by
  refine ⟨by decide, by decide, ?_, ?_⟩
  · unfold american_to_decimal
    split_ifs with h1 h2
    · rfl
    · exact absurd (abs_eq_zero.mp h2) ha
    · rfl
  · unfold decimal_to_american
    split_ifs with h1 h2
    · rfl
    · exact absurd (sub_eq_zero.mp h2) hd
    · rfl

/-- Witness for C5's amended theorem at American odds 7, decimal odds 3. -/
theorem odds_conversion_division_behaviour_witness :
    american_to_decimal 0 = .error PyError.zeroDivision ∧
    decimal_to_american 1 = .error PyError.zeroDivision ∧
    (american_to_decimal 7).isOk = true ∧
    (decimal_to_american 3).isOk = true :=
  odds_conversion_division_behaviour 7 3 (by decide) (by decide)

/-- C6, counterexample. The odds round trip does not stay within 1 of the
input nor preserve its sign everywhere: `american_to_decimal (-100) = 2` and
`decimal_to_american 2 = 100`, so the round trip at `-100` yields `+100`,
200 away and with flipped sign. -/
theorem odds_roundtrip_minus100_cex :
    odds_roundtrip (-100) = .ok 100 ∧
    1 < |(100 : Int) - (-100)| ∧
    Int.sign 100 ≠ Int.sign (-100) := by
  refine ⟨?_, ?_, ?_⟩ <;> decide

/-- C6, amended. For American odds in the standard range — `a ≥ +100` or
`a ≤ -101` — the round trip `decimal_to_american (american_to_decimal a)`
returns exactly `a` (hence within 1 of `a` and with matching sign). The
boundary `a = -100` maps to `+100`, and inputs with `|a| < 100` can land
arbitrarily far away, so the claim holds only on this restricted range. -/
theorem odds_roundtrip_exact_in_standard_range (a : Int)
    (h : 100 ≤ a ∨ a ≤ -101) : odds_roundtrip a = .ok a := by
  rcases h with h | h
  · have ha : a > 0 := by omega
    have haR : (100 : Rat) ≤ (a : Rat) := by exact_mod_cast h
    have h2 : (1 : Rat) + (a : Rat) / 100 ≥ 2 := by
      rw [ge_iff_le, ← sub_nonneg]
      have : (1 : Rat) + (a : Rat) / 100 - 2 = ((a : Rat) - 100) / 100 := by ring
      rw [this]
      apply div_nonneg (by linarith) (by norm_num)
    unfold odds_roundtrip american_to_decimal decimal_to_american
    rw [if_pos ha]
    simp only [if_pos h2]
    have harg : ((1 : Rat) + (a : Rat) / 100 - 1) * 100 = (a : Rat) := by
      field_simp
    rw [harg, int_trunc_intCast]
  · have ha : ¬ a > 0 := by omega
    have habs : ¬ |a| = 0 := by
      rw [abs_eq_zero]
      omega
    have habsR : (0 : Rat) < (|a| : Rat) := by
      have : (0 : Int) < |a| := by
        rw [abs_pos]
        omega
      exact_mod_cast this
    have hlt : ¬ (1 : Rat) + 100 / (|a| : Rat) ≥ 2 := by
      rw [not_le, ← sub_pos]
      have : (2 : Rat) - (1 + 100 / (|a| : Rat)) = ((|a| : Rat) - 100) / (|a| : Rat) := by
        field_simp
        ring
      rw [this]
      have h100 : (100 : Rat) < (|a| : Rat) := by
        have : (100 : Int) < |a| := by
          rw [abs_of_nonpos (by omega : a ≤ 0)]
          omega
        exact_mod_cast this
      apply div_pos (by linarith) habsR
    have hne : ¬ (1 : Rat) + 100 / (|a| : Rat) - 1 = 0 := by
      rw [add_sub_cancel_left]
      positivity
    unfold odds_roundtrip american_to_decimal decimal_to_american
    rw [if_neg ha, if_neg habs]
    simp only [if_neg hlt, if_neg hne]
    have harg : -100 / ((1 : Rat) + 100 / (|a| : Rat) - 1) = ((-|a| : Int) : Rat) := by
      rw [add_sub_cancel_left]
      push_cast
      field_simp
      ring
    rw [harg, int_trunc_intCast]
    have : -|a| = a := by
      rw [abs_of_nonpos (by omega : a ≤ 0)]
      ring
    rw [this]

/-- Witness for C6's amended theorem at American odds +150. -/
theorem odds_roundtrip_exact_in_standard_range_witness :
    (100 ≤ (150 : Int) ∨ (150 : Int) ≤ -101) ∧ odds_roundtrip 150 = .ok 150 :=
  ⟨by decide, odds_roundtrip_exact_in_standard_range 150 (by decide)⟩

/-- C4. If, after applying the submitted updates, any leg of the bet is LOST,
`settle_bet` sets the status to LOST, sets `settled_at`, and creates exactly
one settlement per participant with `net_cents = -stake_cents`, regardless of
the other legs' results (PENDING legs included). -/
theorem lost_leg_settles_full_loss (form : Nat → Option String) (now : Nat) (bet : Bet)
    (h : ((bet.legs.map (apply_result_update form)).any fun leg =>
      leg.result == LegResult.LOST) = true) :
    settle_bet form now bet =
      .ok ⟨{ bet with legs := bet.legs.map (apply_result_update form), status := BetStatus.LOST, settled_at := some now },
           bet.participants.map fun p =>
             { person_id := p.person_id, net_cents := -(p.stake_cents : Rat) }⟩ := by
  simp [settle_bet, h]

/-- Bet used to witness C4: two legs submitted as won and lost,
participants staking 600 and 400 cents. -/
def c4_bet : Bet :=
  { stake_cents := 1000, status := BetStatus.OPEN, settled_at := none,
    legs := [⟨1, 150, LegResult.PENDING⟩, ⟨2, -200, LegResult.PENDING⟩],
    participants := [⟨7, 600⟩, ⟨8, 400⟩] }

/-- Form submission used to witness C4: leg 1 won, leg 2 lost. -/
def c4_form : Nat → Option String :=
  fun i => if i = 1 then some "won" else if i = 2 then some "lost" else none

/-- Witness for C4 on a `[WON, LOST]` bet (spec section 8 test case). -/
theorem lost_leg_settles_full_loss_witness :
    (((c4_bet.legs.map (apply_result_update c4_form)).any fun leg =>
      leg.result == LegResult.LOST) = true) ∧
    settle_bet c4_form 9 c4_bet =
      .ok ⟨{ c4_bet with legs := c4_bet.legs.map (apply_result_update c4_form), status := BetStatus.LOST, settled_at := some 9 },
           c4_bet.participants.map fun p =>
             { person_id := p.person_id, net_cents := -(p.stake_cents : Rat) }⟩ :=
  ⟨by decide, lost_leg_settles_full_loss c4_form 9 c4_bet (by decide)⟩

/-- C7. For an OPEN bet with `settled_at` null, if after the submitted
updates no leg is LOST and some leg is still PENDING, `settle_bet` leaves
the bet OPEN with `settled_at` still null, creates no settlements, and
changes nothing except the leg results. -/
theorem pending_legs_keep_bet_open (form : Nat → Option String) (now : Nat) (bet : Bet)
    (hst : bet.status = BetStatus.OPEN)
    (hsa : bet.settled_at = none)
    (hnl : ((bet.legs.map (apply_result_update form)).any fun leg =>
      leg.result == LegResult.LOST) = false)
    (hp : ((bet.legs.map (apply_result_update form)).any fun leg =>
      leg.result == LegResult.PENDING) = true) :
    settle_bet form now bet =
      .ok ⟨{ bet with legs := bet.legs.map (apply_result_update form) }, []⟩ ∧
    ({ bet with legs := bet.legs.map (apply_result_update form) } : Bet).status
      = BetStatus.OPEN ∧
    ({ bet with legs := bet.legs.map (apply_result_update form) } : Bet).settled_at
      = none := by
  obtain ⟨sc, st, sa, lg, ps⟩ := bet
  simp only at hst hsa
  subst hst
  subst hsa
  refine ⟨?_, rfl, rfl⟩
  simp [settle_bet, hnl, hp]

/-- Bet used to witness C7: legs `[WON, PENDING]` (spec section 8 test
case), one participant. -/
def c7_bet : Bet :=
  { stake_cents := 200, status := BetStatus.OPEN, settled_at := none,
    legs := [⟨1, 150, LegResult.WON⟩, ⟨2, -110, LegResult.PENDING⟩],
    participants := [⟨5, 200⟩] }

/-- Witness for C7 on a `[WON, PENDING]` bet with no submitted updates. -/
theorem pending_legs_keep_bet_open_witness :
    c7_bet.status = BetStatus.OPEN ∧
    c7_bet.settled_at = none ∧
    (((c7_bet.legs.map (apply_result_update fun _ => none)).any fun leg =>
      leg.result == LegResult.LOST) = false) ∧
    (((c7_bet.legs.map (apply_result_update fun _ => none)).any fun leg =>
      leg.result == LegResult.PENDING) = true) ∧
    (settle_bet (fun _ => none) 4 c7_bet =
      .ok ⟨{ c7_bet with legs := c7_bet.legs.map (apply_result_update fun _ => none) }, []⟩ ∧
     ({ c7_bet with legs := c7_bet.legs.map (apply_result_update fun _ => none) } : Bet).status
       = BetStatus.OPEN ∧
     ({ c7_bet with legs := c7_bet.legs.map (apply_result_update fun _ => none) } : Bet).settled_at
       = none) :=
  ⟨rfl, rfl, by decide, by decide,
   pending_legs_keep_bet_open (fun _ => none) 4 c7_bet rfl rfl (by decide) (by decide)⟩

/-- C8, counterexample. The settlement action does not restrict result
updates to PENDING legs: on a bet whose only leg is already WON, submitting
the token `"lost"` overwrites the terminal leg result and settles the bet
LOST, so a terminal leg does not keep its prior value. -/
theorem terminal_leg_overwritten_cex :
    settle_bet (fun _ => some "lost") 5
        { stake_cents := 100, status := BetStatus.OPEN, settled_at := none,
          legs := [⟨1, 150, LegResult.WON⟩], participants := [⟨3, 100⟩] } =
      .ok ⟨{ stake_cents := 100, status := BetStatus.LOST, settled_at := some 5,
             legs := [⟨1, 150, LegResult.LOST⟩], participants := [⟨3, 100⟩] },
           [⟨3, -100⟩]⟩ ∧
    LegResult.WON ≠ LegResult.LOST := by
  refine ⟨?_, ?_⟩ <;> decide

/-- C8, amended. The leg-update step applies a submitted token
`"won"`/`"lost"`/`"void"` to the leg whatever its current result (terminal
legs included); a leg with no submitted token, or with any other token
(including `"pending"` and the empty string), keeps its prior value. -/
theorem leg_update_token_semantics (form : Nat → Option String) (leg : BetLeg) :
    (form leg.leg_id = none → apply_result_update form leg = leg) ∧
    (form leg.leg_id = some "won" →
      apply_result_update form leg = { leg with result := LegResult.WON }) ∧
    (form leg.leg_id = some "lost" →
      apply_result_update form leg = { leg with result := LegResult.LOST }) ∧
    (form leg.leg_id = some "void" →
      apply_result_update form leg = { leg with result := LegResult.VOID }) ∧
    (∀ s, form leg.leg_id = some s → s ≠ "won" → s ≠ "lost" → s ≠ "void" →
      apply_result_update form leg = leg) := by
  refine ⟨?_, ?_, ?_, ?_, ?_⟩
  · intro h
    simp [apply_result_update, h]
  · intro h
    simp [apply_result_update, h]
  · intro h
    simp [apply_result_update, h]
  · intro h
    simp [apply_result_update, h]
  · intro s h hw hl hv
    simp only [apply_result_update, h]
    split_ifs <;> simp_all

/-- Witness for C8's amended theorem: token `"void"` overwrites a LOST leg. -/
theorem leg_update_token_semantics_witness :
    apply_result_update (fun _ => some "void") ⟨2, -110, LegResult.LOST⟩ =
      { leg_id := 2, american_odds := -110, result := LegResult.VOID } :=
  (leg_update_token_semantics (fun _ => some "void") ⟨2, -110, LegResult.LOST⟩).2.2.2.1 rfl

/-- Bet evaluated for C1: one leg at +50 submitted as won, participants
staking 1 and 2 cents. -/
def c1_bet : Bet :=
  { stake_cents := 3, status := BetStatus.OPEN, settled_at := none,
    legs := [⟨1, 50, LegResult.PENDING⟩],
    participants := [⟨10, 1⟩, ⟨11, 2⟩] }

/-- Form submission evaluated for C1: leg 1 won. -/
def c1_form : Nat → Option String := fun i => if i = 1 then some "won" else none

/-- C1 (code bug). On an all-WON bet the code takes the WON branch and the
total payout is `calculate_parlay_payout`, but the per-participant
`net_cents` is inserted as the unrounded value
`stake/total × payout − stake`: here decimal odds are 3/2, payout is
`pyround (3 × 3/2) = 4`, and participant 10 receives `net_cents = 1/3` — a
non-integer differing from the claimed
`round(stake/total × payout) − stake = pyround (1/3 × 4) − 1 = 0`. -/
theorem settle_won_inserts_unrounded_share :
    settle_bet c1_form 7 c1_bet =
      .ok ⟨{ c1_bet with legs := [⟨1, 50, LegResult.WON⟩], status := BetStatus.WON, settled_at := some 7 },
           [⟨10, 1/3⟩, ⟨11, 2/3⟩]⟩ ∧
    ((1 : Rat)/3) ≠ (((pyround ((1/3 : Rat) * 4) : Int) : Rat) - 1) := by
  refine ⟨?_, ?_⟩ <;> decide

/-- Terminal bet re-submitted for C3: already LOST, `settled_at` set, one
settlement row already recorded. -/
def c3_bet : Bet :=
  { stake_cents := 500, status := BetStatus.LOST, settled_at := some 0,
    legs := [⟨1, -110, LegResult.LOST⟩],
    participants := [⟨1, 500⟩] }

/-- Store state re-submitted for C3. -/
def c3_db : DbState := { bet := c3_bet, settlements := [⟨1, -500⟩] }

/-- C3 (code bug). The settle route has no guard against re-entry: invoking
it on a bet already terminal (LOST, one settlement row recorded) re-runs
the LOST branch, appends a second identical settlement row and rewrites
`settled_at`, so the OPEN → terminal transition is not one-shot. -/
theorem resettle_terminal_appends_duplicate_settlements :
    c3_db.bet.status = BetStatus.LOST ∧
    c3_db.settlements = [⟨1, -500⟩] ∧
    settle_route (fun _ => none) 1 c3_db =
      .ok ⟨{ c3_bet with settled_at := some 1 }, [⟨1, -500⟩, ⟨1, -500⟩]⟩ := by
  refine ⟨?_, ?_, ?_⟩ <;> decide

/-- Legs submitted in the C9 counterexample. -/
def c9_legs : List LegSubmission := [⟨"Detroit at Chicago", "ML", 150⟩]

/-- Stakes submitted in the C9 counterexample: person 1 enters 0.001
dollars, person 2 enters 1 dollar. -/
def c9_stakes : List (Nat × Rat) := [(1, 1/1000), (2, 1)]

/-- The bet the C9 counterexample creates. -/
def c9_bet : Bet :=
  { stake_cents := 100, status := BetStatus.OPEN, settled_at := none,
    legs := [⟨0, 150, LegResult.PENDING⟩],
    participants := [⟨1, 0⟩, ⟨2, 100⟩] }

/-- C9, counterexample. A submitted stake of 0.001 dollars passes the
`> 0` dollar check but truncates to `stake_cents = 0`, so an accepted
bet-creation request can create a participant row with zero stake. -/
theorem subcent_stake_zero_participant_cex :
    new_bet c9_legs c9_stakes = some c9_bet ∧
    ((c9_bet.participants.any fun p => p.stake_cents == 0) = true) ∧
    (0 : Rat) < 1/1000 := by
  refine ⟨?_, ?_, ?_⟩ <;> decide

/-- C9, amended. Bet creation rejects negative stakes and empty requests —
every created participant has `stake_cents ≥ 0` (not necessarily `> 0`,
since sub-cent dollar amounts truncate to zero), the total stake of an
accepted bet is strictly positive, and a request in which no participant
supplies a positive dollar amount is rejected without creating a bet. -/
theorem new_bet_stake_validation (legs_data : List LegSubmission)
    (stakes : List (Nat × Rat)) (bet : Bet) :
    (new_bet legs_data stakes = some bet →
      (∀ p ∈ bet.participants, 0 ≤ p.stake_cents) ∧
      0 < total_stake bet.participants) ∧
    ((∀ s ∈ stakes, ¬ 0 < s.2) → new_bet legs_data stakes = none) := by
  have hmem : ∀ p ∈ collect_participants stakes, 0 ≤ p.stake_cents := by
    intro p hp
    obtain ⟨s, hs, hfs⟩ := List.mem_filterMap.mp hp
    by_cases hpos : 0 < s.2
    · rw [if_pos hpos] at hfs
      obtain rfl := Option.some_inj.mp hfs
      have hq : (0 : Rat) ≤ s.2 * 100 := by positivity
      simp only [int_trunc, if_pos hq]
      exact Int.floor_nonneg.mpr hq
    · rw [if_neg hpos] at hfs
      exact absurd hfs (by simp)
  constructor
  · intro h
    simp only [new_bet] at h
    split_ifs at h with h1 h2 h3
    obtain rfl := Option.some_inj.mp h
    refine ⟨hmem, ?_⟩
    have hge : 0 ≤ total_stake (collect_participants stakes) := total_stake_nonneg _ hmem
    dsimp only
    omega
  · intro hnone
    have hpart : collect_participants stakes = [] := by
      unfold collect_participants
      rw [List.filterMap_eq_nil_iff]
      intro s hs
      rw [if_neg (hnone s hs)]
    by_cases hl : legs_data = []
    · simp [new_bet, hl]
    · simp [new_bet, hl, hpart]

/-- Witness for C9's amended theorem on the accepted request of the
counterexample: its participants all have nonnegative stakes and the total
stake is positive. -/
theorem new_bet_stake_validation_witness :
    (∀ p ∈ c9_bet.participants, 0 ≤ p.stake_cents) ∧
    0 < total_stake c9_bet.participants :=
  (new_bet_stake_validation c9_legs c9_stakes c9_bet).1 (by decide)

/-- C10. On a bet with zero legs (and positive total stake) the settlement
action takes the all-winning branch vacuously: status WON, `settled_at`
set, the combined decimal odds fold yields 1, the total payout equals the
total stake, and every participant receives a settlement with
`net_cents = 0`. -/
theorem zero_leg_bet_settles_won_zero_net (form : Nat → Option String) (now : Nat)
    (bet : Bet) (hlegs : bet.legs = [])
    (hpos : 0 < total_stake bet.participants) :
    settle_bet form now bet =
      .ok ⟨{ bet with status := BetStatus.WON, settled_at := some now },
           bet.participants.map fun p => { person_id := p.person_id, net_cents := 0 }⟩ ∧
    won_odds_fold (bet.legs.map (apply_result_update form)) 1 = .ok 1 ∧
    calculate_parlay_payout (total_stake bet.participants) 1
      = total_stake bet.participants := by
  have ht : total_stake bet.participants ≠ 0 := ne_of_gt hpos
  have htr : ((total_stake bet.participants : Int) : Rat) ≠ 0 := Int.cast_ne_zero.mpr ht
  have hpay : calculate_parlay_payout (total_stake bet.participants) 1
      = total_stake bet.participants := by
    unfold calculate_parlay_payout
    rw [mul_one, pyround_intCast]
  refine ⟨?_, by simp [hlegs, won_odds_fold], hpay⟩
  have hguard : ¬ (total_stake bet.participants = 0 ∧ bet.participants ≠ []) :=
    fun hc => ht hc.1
  simp only [settle_bet, hlegs, List.map_nil, List.any_nil, List.all_nil, won_odds_fold,
    Bool.false_eq_true, if_false, if_true, hguard]
  rw [hpay]
  refine congrArg PyResult.ok ?_
  refine congrArg (SettleOutcome.mk _) ?_
  refine List.map_congr_left ?_
  intro p hp
  simp only [Settlement.mk.injEq]
  refine ⟨trivial, ?_⟩
  rw [div_mul_cancel₀ _ htr, sub_self]

/-- Zero-leg bet used to witness C10. -/
def c10_bet : Bet :=
  { stake_cents := 100, status := BetStatus.OPEN, settled_at := none,
    legs := [], participants := [⟨1, 60⟩, ⟨2, 40⟩] }

/-- Witness for C10 on a zero-leg bet with two participants. -/
theorem zero_leg_bet_settles_won_zero_net_witness :
    c10_bet.legs = [] ∧ 0 < total_stake c10_bet.participants ∧
    (settle_bet (fun _ => none) 3 c10_bet =
       .ok ⟨{ c10_bet with status := BetStatus.WON, settled_at := some 3 },
            c10_bet.participants.map fun p => { person_id := p.person_id, net_cents := 0 }⟩ ∧
     won_odds_fold (c10_bet.legs.map (apply_result_update fun _ => none)) 1 = .ok 1 ∧
     calculate_parlay_payout (total_stake c10_bet.participants) 1
       = total_stake c10_bet.participants) :=
  ⟨rfl, by decide,
   zero_leg_bet_settles_won_zero_net (fun _ => none) 3 c10_bet rfl (by decide)⟩

end BetLedger
